import Mathlib

/-!
A shallow embedding of the alert-lifecycle core of `src/API_gateway.py`
(class `AlertManager` and the notifier classes).

Modelling conventions:
* Python dicts that hold alert fields become the `Alert` structure; the keys
  `resolved_at` and `resolution_message` are absent until resolution, so they
  are `Option`-valued (`resolution_message` is `Option (Option String)`:
  `none` = key absent, `some m` = key present with Python value `m`, where the
  inner `none` is Python `None`).
* `self.active_alerts` is a Python dict (insertion-ordered, unique keys); it
  becomes an association list `Store` iterated in order.  `storeGet` is dict
  lookup, `storeSet` is in-place assignment to an existing key.
* `self.alert_history` appends the very dict objects stored in
  `active_alerts` (aliasing).  Since every appended alert stays in
  `active_alerts` under its id forever, a history entry is modelled as the id
  it references; `historyView` dereferences the log against the live store.
* Timestamps (`datetime.utcnow().isoformat()`, `time.time()`) become a `Nat`
  parameter `now` threaded through each operation.
* `uuid.uuid4()` becomes an explicit `alert_id` argument.
* A notification service's external send call either succeeds or raises; the
  raise is caught by the dispatcher's `try/except`.  A service is modelled by
  its name plus the outcome its two send calls would have; the dispatcher
  returns the list of attempted `(name, delivered?)` pairs instead of
  printing, and is a total function (the `except` branch never escapes).
-/

namespace APIGateway

namespace AlertSeverity

/-- Python `AlertSeverity.INFO`. -/
def INFO : String := "info"

/-- Python `AlertSeverity.WARNING`. -/
def WARNING : String := "warning"

/-- Python `AlertSeverity.ERROR`. -/
def ERROR : String := "error"

/-- Python `AlertSeverity.CRITICAL`. -/
def CRITICAL : String := "critical"

end AlertSeverity

/-- The alert dict built by `AlertManager.create_alert` (plus the fields added
later: `count` at creation, `resolved_at` / `resolution_message` at
resolution). `details` is the opaque payload dict, modelled as key/value
pairs. -/
structure Alert where
  id : String
  type : String
  source : String
  severity : String
  message : String
  details : List (String × String)
  environment : String
  related_entities : List String
  created_at : Nat
  updated_at : Nat
  status : String
  count : Nat
  resolved_at : Option Nat
  resolution_message : Option (Option String)
deriving DecidableEq

/-- `self.active_alerts`: a Python dict `id -> alert`, as an insertion-ordered
association list. -/
abbrev Store : Type := List (String × Alert)

/-- Dict lookup `self.active_alerts.get(alert_id)`. -/
def storeGet : Store → String → Option Alert
  | [], _ => none
  | (k, v) :: rest, alert_id => if k = alert_id then some v else storeGet rest alert_id

/-- In-place mutation of the dict entry at an existing key (Python mutates the
alert object held under the key; absent keys are never written by the code
paths modelled here, in which case this is the identity). -/
def storeSet : Store → String → Alert → Store
  | [], _, _ => []
  | (k, v) :: rest, alert_id, a =>
    if k = alert_id then (k, a) :: rest else (k, v) :: storeSet rest alert_id a

/-- One entry of `self.notification_services`: its dict key (`"email"`,
`"slack"`, `"pagerduty"`) and the outcome its external send calls would have
(`true` = the call raises and is caught by the dispatcher). -/
structure NotificationService where
  name : String
  send_alert_fails : Bool
  send_resolution_fails : Bool
deriving DecidableEq

/-- The mutable state of an `AlertManager`: the active-alert dict, the history
log (ids of the aliased alert objects, in append order) and the configured
`deduplication_window`. -/
structure AlertManagerState where
  active_alerts : Store
  alert_history : List String
  dedup_window : Nat
deriving DecidableEq

/-- The alert dict literal built at the top of `create_alert` (with the
`count = 1` that the non-duplicate path adds; the duplicate path never reads
the candidate's `count`). -/
def mk_alert (alert_id alert_type source severity message : String)
    (details : List (String × String)) (environment : String)
    (related_entities : List String) (now : Nat) : Alert :=
  { id := alert_id
    type := alert_type
    source := source
    severity := severity
    message := message
    details := details
    environment := environment
    related_entities := related_entities
    created_at := now
    updated_at := now
    status := "active"
    count := 1
    resolved_at := none
    resolution_message := none }

/-- The loop body condition of `_check_for_duplicate`: the stored alert is
returned when it is not skipped by either `continue` (status not active, or
age beyond the window) and its signature equals the candidate's. -/
def isDuplicate (existing a : Alert) (now window : Nat) : Prop :=
  existing.status = "active" ∧ ¬ (now - existing.created_at > window) ∧
  existing.type = a.type ∧ existing.source = a.source ∧
  existing.severity = a.severity ∧ existing.environment = a.environment

instance (existing a : Alert) (now window : Nat) :
    Decidable (isDuplicate existing a now window) := by
  unfold isDuplicate
  infer_instance

/-- `AlertManager._check_for_duplicate`: scan `active_alerts` in iteration
order and return the first stored alert that is active, within the
deduplication window, and signature-equal to the candidate. -/
def check_for_duplicate : Store → Alert → Nat → Nat → Option Alert
  | [], _, _, _ => none
  | (_, existing) :: rest, a, now, window =>
    if isDuplicate existing a now window then some existing
    else check_for_duplicate rest a now window

/-- `AlertManager._send_notifications`: no-op for severity `info`; otherwise
try each service's `send_alert` in turn, catching any raise.  Returns the
attempted `(service name, delivered?)` pairs. -/
def send_notifications (alert : Alert)
    (services : List NotificationService) : List (String × Bool) :=
  if alert.severity = AlertSeverity.INFO then []
  else services.map fun sv => (sv.name, !sv.send_alert_fails)

/-- `AlertManager._send_resolution_notification`: no-op unless severity is
`error` or `critical`; otherwise try each service's `send_resolution`,
catching any raise. -/
def send_resolution_notification (alert : Alert)
    (services : List NotificationService) : List (String × Bool) :=
  if alert.severity ∉ [AlertSeverity.ERROR, AlertSeverity.CRITICAL] then []
  else services.map fun sv => (sv.name, !sv.send_resolution_fails)

/-- Result of one `create_alert` call: the state afterwards, the returned
alert dict, and the notification attempts made. -/
structure CreateResult where
  state : AlertManagerState
  alert : Alert
  sent : List (String × Bool)
deriving DecidableEq

/-- The in-place mutation that `_update_alert` performs on a duplicate:
`count` is set to the existing count plus one and `updated_at` is refreshed
(the call site passes the candidate's `updated_at`, then `_update_alert`
stamps `updated_at` again; both are "now"). -/
def mergedAlert (dup : Alert) (now : Nat) : Alert :=
  { dup with count := dup.count + 1, updated_at := now }

/-- `AlertManager.create_alert`.  Build the candidate alert; if
`_check_for_duplicate` finds a match, `_update_alert` bumps its `count` and
`updated_at` in place and the (mutated) existing dict is returned, with no
insert, no history append and no notification; otherwise the candidate gets
`count = 1`, is stored and appended to history, and notifications are sent. -/
def create_alert (s : AlertManagerState) (services : List NotificationService)
    (alert_id alert_type source severity message : String)
    (details : List (String × String)) (environment : String)
    (related_entities : List String) (now : Nat) : CreateResult :=
  let alert := mk_alert alert_id alert_type source severity message details
    environment related_entities now
  match check_for_duplicate s.active_alerts alert now s.dedup_window with
  | some dup =>
    { state := { s with active_alerts := storeSet s.active_alerts dup.id (mergedAlert dup now) }
      alert := mergedAlert dup now
      sent := [] }
  | none =>
    { state := { s with
        active_alerts := s.active_alerts ++ [(alert_id, alert)]
        alert_history := s.alert_history ++ [alert_id] }
      alert := alert
      sent := send_notifications alert services }

/-- The `ValueError` raised by `resolve_alert` (and `_update_alert`) when the
id is not a key of `active_alerts`. -/
inductive AlertError where
  | notFound (alert_id : String)
deriving DecidableEq

/-- Result of a successful `resolve_alert` call. -/
structure ResolveResult where
  state : AlertManagerState
  alert : Alert
  sent : List (String × Bool)
deriving DecidableEq

/-- The in-place mutation that `resolve_alert` performs on the stored dict:
status set to resolved, `resolved_at` stamped, `resolution_message` set to the
argument (which may itself be Python `None`). -/
def resolvedAlert (a : Alert) (resolution_message : Option String) (now : Nat) : Alert :=
  { a with
    status := "resolved"
    resolved_at := some now
    resolution_message := some resolution_message }

/-- `AlertManager.resolve_alert`: raise if the id is unknown; otherwise set
`status`, `resolved_at` and `resolution_message` on the stored dict in place
(no status check first) and send the resolution notification. -/
def resolve_alert (s : AlertManagerState) (services : List NotificationService)
    (alert_id : String) (resolution_message : Option String) (now : Nat) :
    Except AlertError ResolveResult :=
  match storeGet s.active_alerts alert_id with
  | none => .error (.notFound alert_id)
  | some alert =>
    .ok { state :=
            { s with active_alerts :=
                storeSet s.active_alerts alert_id (resolvedAlert alert resolution_message now) }
          alert := resolvedAlert alert resolution_message now
          sent :=
            send_resolution_notification (resolvedAlert alert resolution_message now) services }

/-- One optional filter test of `get_active_alerts`, with Python truthiness:
`if f and alert_field != f: continue` — `None` and the empty string are falsy,
so both disable the filter. -/
def matchesFilter (f : Option String) (v : String) : Bool :=
  match f with
  | none => true
  | some fv => if fv = "" then true else decide (v = fv)

/-- `AlertManager.get_active_alerts`: iterate the dict values, keeping alerts
whose status is active and which pass every (truthy) filter. -/
def get_active_alerts (s : AlertManagerState)
    (environment severity source : Option String) : List Alert :=
  (s.active_alerts.map Prod.snd).filter fun alert =>
    decide (alert.status = "active") && matchesFilter environment alert.environment &&
      matchesFilter severity alert.severity && matchesFilter source alert.source

/-- `AlertManager.get_alert_by_id`. -/
def get_alert_by_id (s : AlertManagerState) (alert_id : String) : Option Alert :=
  storeGet s.active_alerts alert_id

/-- What `self.alert_history` holds at a given moment: the history entries are
references to the live alert dicts, so reading entry `i` reads the current
state of the alert it aliases. -/
def historyView (s : AlertManagerState) : List (Option Alert) :=
  s.alert_history.map (storeGet s.active_alerts)

/-- The payload of the PagerDuty events API call made by
`PagerDutyNotifier.send_alert`. -/
structure PagerDutyPayload where
  service_key : String
  event_type : String
  incident_key : String
  description : String
deriving DecidableEq

namespace PagerDutyNotifier

/-- `PagerDutyNotifier.send_alert`: returns without any delivery attempt
unless severity is `error` or `critical`; otherwise posts a trigger event
(`none` = no HTTP request is made at all). -/
def send_alert (service_key : String) (alert : Alert) : Option PagerDutyPayload :=
  if alert.severity ∉ [AlertSeverity.ERROR, AlertSeverity.CRITICAL] then none
  else some { service_key := service_key
              event_type := "trigger"
              incident_key := alert.id
              description := alert.message }

end PagerDutyNotifier

/-! ### Concrete fixtures (used by witnesses and counterexamples) -/

/-- A fresh manager over the default config: empty store, empty history,
`deduplication_window = 300`. -/
def exState0 : AlertManagerState :=
  { active_alerts := [], alert_history := [], dedup_window := 300 }

/-- Two enabled services; the slack one raises on `send_alert`. -/
def exServices : List NotificationService :=
  [{ name := "email", send_alert_fails := false, send_resolution_fails := false },
   { name := "slack", send_alert_fails := true, send_resolution_fails := false }]

/-- First creation of a warning alert (spec scenario, t = 0). -/
def exCreate1 : CreateResult :=
  create_alert exState0 exServices "id-1" "latency_spike" "checkout-api" "warning"
    "p99 above threshold" [] "prod" [] 0

/-- Same signature again 10 s later with a different id and message: a dedup
merge. -/
def exCreate2 : CreateResult :=
  create_alert exCreate1.state exServices "id-2" "latency_spike" "checkout-api" "warning"
    "p99 above threshold again" [] "prod" [] 10

/-- A critical alert, then resolved, then resolved a second time. -/
def exCreateCrit : CreateResult :=
  create_alert exState0 exServices "id-c" "outage" "db" "critical" "db down" [] "prod" [] 0

def exResolve1 : Except AlertError ResolveResult :=
  resolve_alert exCreateCrit.state exServices "id-c" (some "first fix") 5

/-- Placeholder result (unreachable branches of the fixture matches). -/
def exFallbackResolve : ResolveResult :=
  { state := exState0, alert := mk_alert "" "" "" "" "" [] "" [] 0, sent := [] }

def exStateResolved : AlertManagerState :=
  match exResolve1 with
  | .ok r => r.state
  | .error _ => exState0

def exResolve2 : Except AlertError ResolveResult :=
  resolve_alert exStateResolved exServices "id-c" (some "second fix") 9

/-- Resolving the warning alert of `exCreate1`. -/
def exResolveWarn : Except AlertError ResolveResult :=
  resolve_alert exCreate1.state exServices "id-1" none 20

def exResolveWarnRes : ResolveResult :=
  match exResolveWarn with
  | .ok r => r
  | .error _ => exFallbackResolve

/-- A creation with a severity outside {info, warning, error, critical}. -/
def exBogus : CreateResult :=
  create_alert exState0 exServices "id-b" "latency_spike" "checkout-api" "bogus"
    "malformed severity" [] "prod" [] 0

/-- The candidate dict of `exCreate1`. -/
def exCand1 : Alert :=
  mk_alert "id-1" "latency_spike" "checkout-api" "warning" "p99 above threshold" [] "prod" [] 0

/-- The candidate dict of `exCreate2`. -/
def exCand2 : Alert :=
  mk_alert "id-2" "latency_spike" "checkout-api" "warning" "p99 above threshold again" [] "prod" [] 10

/-- The stored (already resolved) critical alert after `exResolve1`. -/
def exCritResolved : Alert :=
  match storeGet exStateResolved.active_alerts "id-c" with
  | some a => a
  | none => mk_alert "" "" "" "" "" [] "" [] 0

/-! ### Helper lemmas about the store and the duplicate scan -/

theorem check_for_duplicate_eq_none {l : Store} {a : Alert} {now window : Nat} :
    check_for_duplicate l a now window = none ↔
      ∀ p ∈ l, ¬ isDuplicate p.2 a now window := by
  induction l with
  | nil => simp [check_for_duplicate]
  | cons hd tl ih =>
    obtain ⟨k, ex⟩ := hd
    simp only [check_for_duplicate]
    split
    · simp_all
    · simp_all

theorem check_for_duplicate_some {l : Store} {a : Alert} {now window : Nat} {ex : Alert}
    (h : check_for_duplicate l a now window = some ex) :
    isDuplicate ex a now window ∧ ∃ k, (k, ex) ∈ l := by
  induction l with
  | nil => simp [check_for_duplicate] at h
  | cons hd tl ih =>
    obtain ⟨k, e⟩ := hd
    simp only [check_for_duplicate] at h
    split at h
    · cases h
      exact ⟨by assumption, k, by simp⟩
    · obtain ⟨h1, k', hk⟩ := ih h
      exact ⟨h1, k', by simp [hk]⟩

theorem check_for_duplicate_isSome {l : Store} {a : Alert} {now window : Nat}
    (h : ∃ p ∈ l, isDuplicate p.2 a now window) :
    ∃ ex, check_for_duplicate l a now window = some ex := by
  cases hc : check_for_duplicate l a now window with
  | some ex => exact ⟨ex, rfl⟩
  | none =>
    obtain ⟨p, hp, hd⟩ := h
    exact absurd hd (check_for_duplicate_eq_none.mp hc p hp)

theorem storeSet_length (l : Store) (k : String) (a : Alert) :
    (storeSet l k a).length = l.length := by
  induction l with
  | nil => rfl
  | cons hd tl ih =>
    obtain ⟨k', v⟩ := hd
    simp only [storeSet]
    split <;> simp [ih]

theorem storeGet_eq_some_mem {l : Store} {k : String} {v : Alert}
    (h : storeGet l k = some v) : (k, v) ∈ l := by
  induction l with
  | nil => simp [storeGet] at h
  | cons hd tl ih =>
    obtain ⟨k', v'⟩ := hd
    by_cases hk : k' = k
    · rw [storeGet, if_pos hk] at h
      cases h
      subst hk
      exact List.mem_cons_self _ _
    · rw [storeGet, if_neg hk] at h
      exact List.mem_cons_of_mem _ (ih h)

theorem storeGet_storeSet_of_mem (l : Store) (k : String) (a : Alert)
    (h : ∃ v, (k, v) ∈ l) : storeGet (storeSet l k a) k = some a := by
  induction l with
  | nil => simp at h
  | cons hd tl ih =>
    obtain ⟨k', v'⟩ := hd
    by_cases hk : k' = k
    · subst hk
      simp [storeSet, storeGet]
    · simp only [storeSet, storeGet, if_neg hk]
      apply ih
      obtain ⟨v, hv⟩ := h
      rcases List.mem_cons.mp hv with heq | htl
      · cases heq
        exact absurd rfl hk
      · exact ⟨v, htl⟩

theorem create_alert_eq_of_dup (s : AlertManagerState)
    (services : List NotificationService)
    (alert_id alert_type source severity message : String)
    (details : List (String × String)) (environment : String)
    (related_entities : List String) (now : Nat) (dup : Alert)
    (hdup : check_for_duplicate s.active_alerts
      (mk_alert alert_id alert_type source severity message details
        environment related_entities now) now s.dedup_window = some dup) :
    create_alert s services alert_id alert_type source severity message details
        environment related_entities now =
      { state := { s with active_alerts := storeSet s.active_alerts dup.id (mergedAlert dup now) }
        alert := mergedAlert dup now
        sent := [] } := by
  simp only [create_alert, hdup]

theorem create_alert_eq_of_fresh (s : AlertManagerState)
    (services : List NotificationService)
    (alert_id alert_type source severity message : String)
    (details : List (String × String)) (environment : String)
    (related_entities : List String) (now : Nat)
    (hc : check_for_duplicate s.active_alerts
      (mk_alert alert_id alert_type source severity message details
        environment related_entities now) now s.dedup_window = none) :
    create_alert s services alert_id alert_type source severity message details
        environment related_entities now =
      { state := { s with
          active_alerts := s.active_alerts ++
            [(alert_id, mk_alert alert_id alert_type source severity message details
              environment related_entities now)]
          alert_history := s.alert_history ++ [alert_id] }
        alert := mk_alert alert_id alert_type source severity message details
          environment related_entities now
        sent := send_notifications (mk_alert alert_id alert_type source severity message
          details environment related_entities now) services } := by
  simp only [create_alert, hc]

theorem resolve_alert_eq_of_found (s : AlertManagerState)
    (services : List NotificationService) (alert_id : String)
    (resolution_message : Option String) (now : Nat) (a : Alert)
    (ha : storeGet s.active_alerts alert_id = some a) :
    resolve_alert s services alert_id resolution_message now =
      .ok { state :=
              { s with active_alerts :=
                  storeSet s.active_alerts alert_id (resolvedAlert a resolution_message now) }
            alert := resolvedAlert a resolution_message now
            sent :=
              send_resolution_notification (resolvedAlert a resolution_message now) services } := by
  simp only [resolve_alert, ha]

theorem resolve_alert_eq_of_missing (s : AlertManagerState)
    (services : List NotificationService) (alert_id : String)
    (resolution_message : Option String) (now : Nat)
    (ha : storeGet s.active_alerts alert_id = none) :
    resolve_alert s services alert_id resolution_message now =
      .error (.notFound alert_id) := by
  simp only [resolve_alert, ha]

/-! ### Claim theorems -/

/-- C1: when the candidate's signature matches some stored alert that is
active and within the deduplication window, `create_alert` creates no new
record — it returns the existing record's id with its count incremented by
one, leaves the store size and the history log unchanged, and the merged
record replaces the old one in the store; when no such fresh active match
exists, a new, separate active record with count 1 is appended to the
store. -/
theorem create_alert_dedup_spec (s : AlertManagerState)
    (services : List NotificationService)
    (alert_id alert_type source severity message : String)
    (details : List (String × String)) (environment : String)
    (related_entities : List String) (now : Nat) (cand : Alert) (r : CreateResult)
    (hwf : ∀ p ∈ s.active_alerts, p.1 = p.2.id)
    (hcand : cand = mk_alert alert_id alert_type source severity message details
      environment related_entities now)
    (hr : r = create_alert s services alert_id alert_type source severity message details
      environment related_entities now) :
    ((∃ p ∈ s.active_alerts, isDuplicate p.2 cand now s.dedup_window) →
      ∃ dup, check_for_duplicate s.active_alerts cand now s.dedup_window = some dup ∧
        isDuplicate dup cand now s.dedup_window ∧
        r.alert.id = dup.id ∧ r.alert.count = dup.count + 1 ∧
        r.alert.status = "active" ∧
        r.state.active_alerts.length = s.active_alerts.length ∧
        r.state.alert_history = s.alert_history ∧
        storeGet r.state.active_alerts dup.id = some r.alert) ∧
    ((∀ p ∈ s.active_alerts, ¬ isDuplicate p.2 cand now s.dedup_window) →
      r.state.active_alerts = s.active_alerts ++ [(alert_id, cand)] ∧
      r.alert = cand ∧ r.alert.count = 1 ∧ r.alert.status = "active") := by
  subst hcand hr
  constructor
  · intro hex
    obtain ⟨dup, hdup⟩ := check_for_duplicate_isSome hex
    obtain ⟨hisdup, k, hk⟩ := check_for_duplicate_some hdup
    have hkid : k = dup.id := hwf (k, dup) hk
    subst hkid
    refine ⟨dup, hdup, hisdup, ?_⟩
    rw [create_alert_eq_of_dup s services alert_id alert_type source severity message
      details environment related_entities now dup hdup]
    exact ⟨rfl, rfl, hisdup.1, storeSet_length _ _ _, rfl,
      storeGet_storeSet_of_mem _ _ _ ⟨dup, hk⟩⟩
  · intro hnone
    have hc : check_for_duplicate s.active_alerts
        (mk_alert alert_id alert_type source severity message details
          environment related_entities now) now s.dedup_window = none :=
      check_for_duplicate_eq_none.mpr hnone
    rw [create_alert_eq_of_fresh s services alert_id alert_type source severity message
      details environment related_entities now hc]
    exact ⟨rfl, rfl, rfl, rfl⟩

/-- Witness for C1: the duplicate branch at the spec scenario (same signature
10 s apart merges into one record with count 2) and the fresh branch at the
first creation. -/
theorem create_alert_dedup_spec_witness :
    (∃ dup, check_for_duplicate exCreate1.state.active_alerts exCand2 10
        exCreate1.state.dedup_window = some dup ∧
      isDuplicate dup exCand2 10 exCreate1.state.dedup_window ∧
      exCreate2.alert.id = dup.id ∧ exCreate2.alert.count = dup.count + 1 ∧
      exCreate2.alert.status = "active" ∧
      exCreate2.state.active_alerts.length = exCreate1.state.active_alerts.length ∧
      exCreate2.state.alert_history = exCreate1.state.alert_history ∧
      storeGet exCreate2.state.active_alerts dup.id = some exCreate2.alert) ∧
    (exCreate1.state.active_alerts = exState0.active_alerts ++ [("id-1", exCand1)] ∧
      exCreate1.alert = exCand1 ∧ exCreate1.alert.count = 1 ∧
      exCreate1.alert.status = "active") := by
  constructor
  · exact (create_alert_dedup_spec exCreate1.state exServices "id-2" "latency_spike"
      "checkout-api" "warning" "p99 above threshold again" [] "prod" [] 10 exCand2 exCreate2
      (by decide) rfl rfl).1 ⟨("id-1", exCreate1.alert), by decide, by decide⟩
  · exact (create_alert_dedup_spec exState0 exServices "id-1" "latency_spike"
      "checkout-api" "warning" "p99 above threshold" [] "prod" [] 0 exCand1 exCreate1
      (by decide) rfl rfl).2 (by decide)

/-- C9: a dedup merge changes only `count` (incremented) and `updated_at`
(set to now) on the returned record; id, type, source, severity, environment,
message, details, related_entities, created_at, status and the resolution
fields all keep the existing record's values (in particular the new event's
message and details are discarded), and no notification is attempted. -/
theorem dedup_merge_frame (s : AlertManagerState)
    (services : List NotificationService)
    (alert_id alert_type source severity message : String)
    (details : List (String × String)) (environment : String)
    (related_entities : List String) (now : Nat) (cand : Alert) (r : CreateResult)
    (dup : Alert)
    (hcand : cand = mk_alert alert_id alert_type source severity message details
      environment related_entities now)
    (hr : r = create_alert s services alert_id alert_type source severity message details
      environment related_entities now)
    (hdup : check_for_duplicate s.active_alerts cand now s.dedup_window = some dup) :
    r.alert.id = dup.id ∧ r.alert.type = dup.type ∧ r.alert.source = dup.source ∧
    r.alert.severity = dup.severity ∧ r.alert.environment = dup.environment ∧
    r.alert.message = dup.message ∧ r.alert.details = dup.details ∧
    r.alert.related_entities = dup.related_entities ∧
    r.alert.created_at = dup.created_at ∧ r.alert.status = dup.status ∧
    r.alert.resolved_at = dup.resolved_at ∧
    r.alert.resolution_message = dup.resolution_message ∧
    r.alert.count = dup.count + 1 ∧ r.alert.updated_at = now ∧ r.sent = [] := by
  subst hcand hr
  rw [create_alert_eq_of_dup s services alert_id alert_type source severity message
    details environment related_entities now dup hdup]
  exact ⟨rfl, rfl, rfl, rfl, rfl, rfl, rfl, rfl, rfl, rfl, rfl, rfl, rfl, rfl, rfl⟩

/-- Witness for C9: the merge of `exCreate2` into the record created by
`exCreate1`, whose message differs from the new event's. -/
theorem dedup_merge_frame_witness :
    exCreate2.alert.id = exCreate1.alert.id ∧
    exCreate2.alert.type = exCreate1.alert.type ∧
    exCreate2.alert.source = exCreate1.alert.source ∧
    exCreate2.alert.severity = exCreate1.alert.severity ∧
    exCreate2.alert.environment = exCreate1.alert.environment ∧
    exCreate2.alert.message = exCreate1.alert.message ∧
    exCreate2.alert.details = exCreate1.alert.details ∧
    exCreate2.alert.related_entities = exCreate1.alert.related_entities ∧
    exCreate2.alert.created_at = exCreate1.alert.created_at ∧
    exCreate2.alert.status = exCreate1.alert.status ∧
    exCreate2.alert.resolved_at = exCreate1.alert.resolved_at ∧
    exCreate2.alert.resolution_message = exCreate1.alert.resolution_message ∧
    exCreate2.alert.count = exCreate1.alert.count + 1 ∧
    exCreate2.alert.updated_at = 10 ∧ exCreate2.sent = [] :=
  dedup_merge_frame exCreate1.state exServices "id-2" "latency_spike" "checkout-api"
    "warning" "p99 above threshold again" [] "prod" [] 10 exCand2 exCreate2
    exCreate1.alert rfl rfl (by decide)

/-- C2 counterexample: after the first creation the single history entry
reads count 1; the subsequent dedup merge is a successful update, yet it
appends nothing to the history log (refuting "each successful update appends
a snapshot") and the previously appended entry now reads count 2 (refuting
"no history entry is ever mutated after it has been appended"). -/
theorem history_snapshot_counterexample :
    historyView exCreate1.state = [some exCreate1.alert] ∧
    exCreate1.alert.count = 1 ∧
    exCreate2.state.alert_history = exCreate1.state.alert_history ∧
    historyView exCreate2.state = [some exCreate2.alert] ∧
    exCreate2.alert.count = 2 := by
  decide

/-- C2 amended: only a fresh insert appends (exactly the new alert's id) to
the history log; a dedup merge and a resolution append nothing; and because a
history entry is a reference to the live record, after a merge the history
view exposes the merged (count-incremented) record, and after a resolution
the history view exposes the resolved record, in place of the state the
record had when appended. -/
theorem history_append_and_aliasing (s : AlertManagerState)
    (services : List NotificationService)
    (alert_id alert_type source severity message : String)
    (details : List (String × String)) (environment : String)
    (related_entities : List String) (now : Nat) (cand : Alert) (r : CreateResult)
    (rid : String) (rmsg : Option String) (rnow : Nat)
    (hcand : cand = mk_alert alert_id alert_type source severity message details
      environment related_entities now)
    (hr : r = create_alert s services alert_id alert_type source severity message details
      environment related_entities now) :
    (check_for_duplicate s.active_alerts cand now s.dedup_window = none →
      r.state.alert_history = s.alert_history ++ [alert_id]) ∧
    (∀ dup, check_for_duplicate s.active_alerts cand now s.dedup_window = some dup →
      r.state.alert_history = s.alert_history) ∧
    (∀ rr, resolve_alert s services rid rmsg rnow = .ok rr →
      rr.state.alert_history = s.alert_history) ∧
    (∀ dup, check_for_duplicate s.active_alerts cand now s.dedup_window = some dup →
      (∀ p ∈ s.active_alerts, p.1 = p.2.id) → dup.id ∈ s.alert_history →
      some r.alert ∈ historyView r.state) ∧
    (∀ a rr, storeGet s.active_alerts rid = some a →
      resolve_alert s services rid rmsg rnow = .ok rr → rid ∈ s.alert_history →
      some rr.alert ∈ historyView rr.state) := by
  subst hcand hr
  refine ⟨?_, ?_, ?_, ?_, ?_⟩
  · intro hc
    rw [create_alert_eq_of_fresh s services alert_id alert_type source severity message
      details environment related_entities now hc]
  · intro dup hdup
    rw [create_alert_eq_of_dup s services alert_id alert_type source severity message
      details environment related_entities now dup hdup]
  · intro rr hrr
    cases hget : storeGet s.active_alerts rid with
    | none =>
      rw [resolve_alert_eq_of_missing s services rid rmsg rnow hget] at hrr
      cases hrr
    | some a =>
      rw [resolve_alert_eq_of_found s services rid rmsg rnow a hget] at hrr
      cases hrr
      rfl
  · intro dup hdup hwf hmem
    obtain ⟨-, k, hk⟩ := check_for_duplicate_some hdup
    have hkid : k = dup.id := hwf (k, dup) hk
    subst hkid
    rw [create_alert_eq_of_dup s services alert_id alert_type source severity message
      details environment related_entities now dup hdup]
    exact List.mem_map.mpr ⟨dup.id, hmem, storeGet_storeSet_of_mem _ _ _ ⟨dup, hk⟩⟩
  · intro a rr hget hrr hmem
    rw [resolve_alert_eq_of_found s services rid rmsg rnow a hget] at hrr
    cases hrr
    exact List.mem_map.mpr ⟨rid, hmem,
      storeGet_storeSet_of_mem _ _ _ ⟨a, storeGet_eq_some_mem hget⟩⟩

/-- Witness for the amended C2, at the fixture run: the insert appends
`id-1`, the merge and the resolution append nothing, after the merge the
history view shows the merged record, and after the resolution it shows the
resolved record. -/
theorem history_append_and_aliasing_witness :
    (exCreate1.state.alert_history = exState0.alert_history ++ ["id-1"]) ∧
    (exCreate2.state.alert_history = exCreate1.state.alert_history) ∧
    (exResolveWarnRes.state.alert_history = exCreate1.state.alert_history) ∧
    (some exCreate2.alert ∈ historyView exCreate2.state) ∧
    (some exResolveWarnRes.alert ∈ historyView exResolveWarnRes.state) := by
  refine ⟨?_, ?_, ?_, ?_, ?_⟩
  · exact (history_append_and_aliasing exState0 exServices "id-1" "latency_spike"
      "checkout-api" "warning" "p99 above threshold" [] "prod" [] 0 exCand1 exCreate1
      "x" none 0 rfl rfl).1 (by decide)
  · exact (history_append_and_aliasing exCreate1.state exServices "id-2" "latency_spike"
      "checkout-api" "warning" "p99 above threshold again" [] "prod" [] 10 exCand2 exCreate2
      "x" none 0 rfl rfl).2.1 exCreate1.alert (by decide)
  · exact (history_append_and_aliasing exCreate1.state exServices "id-2" "latency_spike"
      "checkout-api" "warning" "p99 above threshold again" [] "prod" [] 10 exCand2 exCreate2
      "id-1" none 20 rfl rfl).2.2.1 exResolveWarnRes (by rfl)
  · exact (history_append_and_aliasing exCreate1.state exServices "id-2" "latency_spike"
      "checkout-api" "warning" "p99 above threshold again" [] "prod" [] 10 exCand2 exCreate2
      "x" none 0 rfl rfl).2.2.2.1 exCreate1.alert (by decide) (by decide) (by decide)
  · exact (history_append_and_aliasing exCreate1.state exServices "id-2" "latency_spike"
      "checkout-api" "warning" "p99 above threshold again" [] "prod" [] 10 exCand2 exCreate2
      "id-1" none 20 rfl rfl).2.2.2.2 exCreate1.alert exResolveWarnRes (by decide) (by rfl)
      (by decide)

/-- C3: `resolve_alert` fails with NotFound exactly when the id is not in the
store; on an existing active alert it succeeds and returns the record with
status resolved, `resolved_at` stamped with now, and `resolution_message` set
to the given message. -/
theorem resolve_alert_spec (s : AlertManagerState)
    (services : List NotificationService) (alert_id : String)
    (resolution_message : Option String) (now : Nat) :
    (resolve_alert s services alert_id resolution_message now =
        .error (.notFound alert_id) ↔ storeGet s.active_alerts alert_id = none) ∧
    (∀ a, storeGet s.active_alerts alert_id = some a → a.status = "active" →
      ∃ r, resolve_alert s services alert_id resolution_message now = .ok r ∧
        r.alert.id = a.id ∧ r.alert.status = "resolved" ∧
        r.alert.resolved_at = some now ∧
        r.alert.resolution_message = some resolution_message) := by
  constructor
  · constructor
    · intro h
      cases hget : storeGet s.active_alerts alert_id with
      | none => rfl
      | some a =>
        rw [resolve_alert_eq_of_found s services alert_id resolution_message now a hget] at h
        cases h
    · intro h
      exact resolve_alert_eq_of_missing s services alert_id resolution_message now h
  · intro a ha hact
    exact ⟨_, resolve_alert_eq_of_found s services alert_id resolution_message now a ha,
      rfl, rfl, rfl, rfl⟩

/-- Witness for C3: resolving an unknown id fails with NotFound (spec
scenario), and resolving the active warning alert succeeds with the stamped
fields. -/
theorem resolve_alert_spec_witness :
    resolve_alert exState0 exServices "nonexistent-id" none 0 =
      .error (.notFound "nonexistent-id") ∧
    (∃ r, resolve_alert exCreate1.state exServices "id-1" (some "rolled back deploy") 20 =
        .ok r ∧
      r.alert.id = exCreate1.alert.id ∧ r.alert.status = "resolved" ∧
      r.alert.resolved_at = some 20 ∧
      r.alert.resolution_message = some (some "rolled back deploy")) := by
  constructor
  · exact (resolve_alert_spec exState0 exServices "nonexistent-id" none 0).1.mpr (by decide)
  · exact (resolve_alert_spec exCreate1.state exServices "id-1"
      (some "rolled back deploy") 20).2 exCreate1.alert (by decide) (by decide)

/-- C4 counterexample: resolving the already-resolved critical alert again
does not fail with InvalidState — it succeeds, overwrites `resolved_at`
(5 becomes 9) and `resolution_message`, and re-sends resolution
notifications. -/
theorem resolve_already_resolved_counterexample :
    (exResolve1.toOption.map fun r => r.alert.resolved_at) = some (some 5) ∧
    (exResolve1.toOption.map fun r => r.alert.resolution_message) =
      some (some (some "first fix")) ∧
    (exResolve2.toOption.map fun r => r.alert.resolved_at) = some (some 9) ∧
    (exResolve2.toOption.map fun r => r.alert.resolution_message) =
      some (some (some "second fix")) ∧
    (exResolve2.toOption.map fun r => r.sent) =
      some [("email", true), ("slack", true)] := by
  decide

/-- C4 amended: a second `resolve_alert` on an already-resolved alert
succeeds again (no InvalidState error exists), overwriting `resolved_at` and
`resolution_message`, leaving every other field (id, type, source, severity,
message, details, environment, related_entities, created_at, updated_at,
count, and the status, already resolved) unchanged, and re-triggering the
resolution notification whenever the severity is error or critical. -/
theorem resolve_already_resolved_overwrites (s : AlertManagerState)
    (services : List NotificationService) (alert_id : String)
    (resolution_message : Option String) (now : Nat) (a : Alert)
    (ha : storeGet s.active_alerts alert_id = some a)
    (hres : a.status = "resolved") :
    ∃ r, resolve_alert s services alert_id resolution_message now = .ok r ∧
      r.alert.resolved_at = some now ∧
      r.alert.resolution_message = some resolution_message ∧
      r.alert.id = a.id ∧ r.alert.type = a.type ∧ r.alert.source = a.source ∧
      r.alert.severity = a.severity ∧ r.alert.message = a.message ∧
      r.alert.details = a.details ∧ r.alert.environment = a.environment ∧
      r.alert.related_entities = a.related_entities ∧
      r.alert.created_at = a.created_at ∧ r.alert.updated_at = a.updated_at ∧
      r.alert.count = a.count ∧ r.alert.status = "resolved" ∧
      ((a.severity = "error" ∨ a.severity = "critical") →
        r.sent = services.map fun sv => (sv.name, !sv.send_resolution_fails)) := by
  refine ⟨_, resolve_alert_eq_of_found s services alert_id resolution_message now a ha,
    rfl, rfl, rfl, rfl, rfl, rfl, rfl, rfl, rfl, rfl, rfl, rfl, rfl, rfl, ?_⟩
  intro hsev
  rcases hsev with h | h <;>
    simp [send_resolution_notification, resolvedAlert, h,
      AlertSeverity.ERROR, AlertSeverity.CRITICAL]

/-- Witness for the amended C4: the second resolution of the critical alert
succeeds with the overwritten timestamps, every other field kept, and
re-sends to both services. -/
theorem resolve_already_resolved_overwrites_witness :
    ∃ r, resolve_alert exStateResolved exServices "id-c" (some "second fix") 9 = .ok r ∧
      r.alert.resolved_at = some 9 ∧
      r.alert.resolution_message = some (some "second fix") ∧
      r.alert.id = exCritResolved.id ∧ r.alert.type = exCritResolved.type ∧
      r.alert.source = exCritResolved.source ∧
      r.alert.severity = exCritResolved.severity ∧
      r.alert.message = exCritResolved.message ∧
      r.alert.details = exCritResolved.details ∧
      r.alert.environment = exCritResolved.environment ∧
      r.alert.related_entities = exCritResolved.related_entities ∧
      r.alert.created_at = exCritResolved.created_at ∧
      r.alert.updated_at = exCritResolved.updated_at ∧
      r.alert.count = exCritResolved.count ∧ r.alert.status = "resolved" ∧
      r.sent = exServices.map fun sv => (sv.name, !sv.send_resolution_fails) := by
  obtain ⟨r, h1, h2, h3, h4, h5, h6, h7, h8, h9, h10, h11, h12, h13, h14, h15, h16⟩ :=
    resolve_already_resolved_overwrites exStateResolved exServices "id-c"
      (some "second fix") 9 exCritResolved (by decide) (by decide)
  exact ⟨r, h1, h2, h3, h4, h5, h6, h7, h8, h9, h10, h11, h12, h13, h14, h15,
    h16 (by decide)⟩

/-- C5 counterexample: `create_alert` with the malformed severity "bogus"
does not fail with InvalidArgument — it succeeds and the store gains an
active record with that severity. -/
theorem severity_unvalidated_counterexample :
    exBogus.alert.severity = "bogus" ∧ exBogus.alert.status = "active" ∧
    exBogus.state.active_alerts = [("id-b", exBogus.alert)] ∧
    exBogus.state.active_alerts ≠ exState0.active_alerts := by
  decide

/-- C5 amended: `create_alert` has no failure mode at all: for every severity
value, well-formed or not, the call returns an active alert record carrying
exactly that severity (the fresh record, or the signature-equal merged one). -/
theorem create_alert_never_fails (s : AlertManagerState)
    (services : List NotificationService)
    (alert_id alert_type source severity message : String)
    (details : List (String × String)) (environment : String)
    (related_entities : List String) (now : Nat) :
    (create_alert s services alert_id alert_type source severity message details
      environment related_entities now).alert.severity = severity ∧
    (create_alert s services alert_id alert_type source severity message details
      environment related_entities now).alert.status = "active" := by
  cases hc : check_for_duplicate s.active_alerts (mk_alert alert_id alert_type source
      severity message details environment related_entities now) now s.dedup_window with
  | none =>
    rw [create_alert_eq_of_fresh s services alert_id alert_type source severity message
      details environment related_entities now hc]
    exact ⟨rfl, rfl⟩
  | some dup =>
    obtain ⟨hisdup, -⟩ := check_for_duplicate_some hc
    rw [create_alert_eq_of_dup s services alert_id alert_type source severity message
      details environment related_entities now dup hc]
    exact ⟨hisdup.2.2.2.2.1, hisdup.1⟩

/-- C6: `create_alert` with severity info attempts no channel's `send_alert`,
and `resolve_alert` attempts no channel's `send_resolution` unless the
alert's severity is error or critical. -/
theorem severity_gating (s : AlertManagerState)
    (services : List NotificationService)
    (alert_id alert_type source message : String)
    (details : List (String × String)) (environment : String)
    (related_entities : List String) (now : Nat)
    (rid : String) (rmsg : Option String) (rnow : Nat) :
    (create_alert s services alert_id alert_type source "info" message details
      environment related_entities now).sent = [] ∧
    (∀ r, resolve_alert s services rid rmsg rnow = .ok r →
      r.alert.severity ≠ "error" → r.alert.severity ≠ "critical" → r.sent = []) := by
  constructor
  · cases hc : check_for_duplicate s.active_alerts (mk_alert alert_id alert_type source
        "info" message details environment related_entities now) now s.dedup_window with
    | none =>
      rw [create_alert_eq_of_fresh s services alert_id alert_type source "info" message
        details environment related_entities now hc]
      simp [send_notifications, mk_alert, AlertSeverity.INFO]
    | some dup =>
      rw [create_alert_eq_of_dup s services alert_id alert_type source "info" message
        details environment related_entities now dup hc]
  · intro r hr hne hnc
    cases hget : storeGet s.active_alerts rid with
    | none =>
      rw [resolve_alert_eq_of_missing s services rid rmsg rnow hget] at hr
      cases hr
    | some a =>
      rw [resolve_alert_eq_of_found s services rid rmsg rnow a hget] at hr
      cases hr
      simp only [send_resolution_notification, resolvedAlert, AlertSeverity.ERROR,
        AlertSeverity.CRITICAL] at hne hnc ⊢
      simp [hne, hnc]

/-- Witness for C6: an info-severity creation sends nothing, and resolving
the warning alert sends nothing. -/
theorem severity_gating_witness :
    (create_alert exState0 exServices "id-i" "heartbeat" "svc" "info" "ok" []
      "prod" [] 0).sent = [] ∧
    exResolveWarn = .ok exResolveWarnRes ∧ exResolveWarnRes.sent = [] := by
  refine ⟨?_, by rfl, ?_⟩
  · exact (severity_gating exState0 exServices "id-i" "heartbeat" "svc" "ok" []
      "prod" [] 0 "x" none 0).1
  · exact (severity_gating exCreate1.state exServices "x" "x" "x" "x" [] "x" [] 0
      "id-1" none 20).2 exResolveWarnRes (by rfl) (by decide) (by decide)

/-- C7: channel failures are isolated: whatever subset of the enabled
services raises, every service is still attempted in order (the attempt list
is exactly the service names whenever the dispatcher runs at all), and the
caller-visible outcome of `create_alert` and `resolve_alert` (the returned
alert and the resulting state) is identical no matter which services are
configured or failing — channel errors never propagate. -/
theorem dispatcher_fault_isolation (a : Alert)
    (svs svsB : List NotificationService) (s : AlertManagerState)
    (alert_id alert_type source severity message : String)
    (details : List (String × String)) (environment : String)
    (related_entities : List String) (now : Nat)
    (rid : String) (rmsg : Option String) (rnow : Nat) :
    (a.severity ≠ "info" →
      (send_notifications a svs).map Prod.fst = svs.map NotificationService.name) ∧
    ((a.severity = "error" ∨ a.severity = "critical") →
      (send_resolution_notification a svs).map Prod.fst =
        svs.map NotificationService.name) ∧
    (create_alert s svs alert_id alert_type source severity message details
        environment related_entities now).alert =
      (create_alert s svsB alert_id alert_type source severity message details
        environment related_entities now).alert ∧
    (create_alert s svs alert_id alert_type source severity message details
        environment related_entities now).state =
      (create_alert s svsB alert_id alert_type source severity message details
        environment related_entities now).state ∧
    (resolve_alert s svs rid rmsg rnow).map ResolveResult.alert =
      (resolve_alert s svsB rid rmsg rnow).map ResolveResult.alert ∧
    (resolve_alert s svs rid rmsg rnow).map ResolveResult.state =
      (resolve_alert s svsB rid rmsg rnow).map ResolveResult.state := by
  refine ⟨?_, ?_, ?_, ?_, ?_, ?_⟩
  · intro h
    simp [send_notifications, AlertSeverity.INFO, h, List.map_map, Function.comp]
  · intro h
    have hcond : ¬ (a.severity ∉ [AlertSeverity.ERROR, AlertSeverity.CRITICAL]) := by
      rcases h with h | h <;> simp [h, AlertSeverity.ERROR, AlertSeverity.CRITICAL]
    unfold send_resolution_notification
    rw [if_neg hcond]
    simp [List.map_map, Function.comp]
  · cases hc : check_for_duplicate s.active_alerts (mk_alert alert_id alert_type source
        severity message details environment related_entities now) now s.dedup_window with
    | none =>
      rw [create_alert_eq_of_fresh s svs alert_id alert_type source severity message
          details environment related_entities now hc,
        create_alert_eq_of_fresh s svsB alert_id alert_type source severity message
          details environment related_entities now hc]
    | some dup =>
      rw [create_alert_eq_of_dup s svs alert_id alert_type source severity message
          details environment related_entities now dup hc,
        create_alert_eq_of_dup s svsB alert_id alert_type source severity message
          details environment related_entities now dup hc]
  · cases hc : check_for_duplicate s.active_alerts (mk_alert alert_id alert_type source
        severity message details environment related_entities now) now s.dedup_window with
    | none =>
      rw [create_alert_eq_of_fresh s svs alert_id alert_type source severity message
          details environment related_entities now hc,
        create_alert_eq_of_fresh s svsB alert_id alert_type source severity message
          details environment related_entities now hc]
    | some dup =>
      rw [create_alert_eq_of_dup s svs alert_id alert_type source severity message
          details environment related_entities now dup hc,
        create_alert_eq_of_dup s svsB alert_id alert_type source severity message
          details environment related_entities now dup hc]
  · cases hget : storeGet s.active_alerts rid with
    | none =>
      rw [resolve_alert_eq_of_missing s svs rid rmsg rnow hget,
        resolve_alert_eq_of_missing s svsB rid rmsg rnow hget]
    | some a' =>
      rw [resolve_alert_eq_of_found s svs rid rmsg rnow a' hget,
        resolve_alert_eq_of_found s svsB rid rmsg rnow a' hget]
      rfl
  · cases hget : storeGet s.active_alerts rid with
    | none =>
      rw [resolve_alert_eq_of_missing s svs rid rmsg rnow hget,
        resolve_alert_eq_of_missing s svsB rid rmsg rnow hget]
    | some a' =>
      rw [resolve_alert_eq_of_found s svs rid rmsg rnow a' hget,
        resolve_alert_eq_of_found s svsB rid rmsg rnow a' hget]
      rfl

/-- Witness for C7: with slack failing alongside email, both are still
attempted for the warning creation; the resolution fanout reaches both for
the critical alert; and the caller-visible results coincide with those for an
empty (or any other) service configuration. -/
theorem dispatcher_fault_isolation_witness :
    (send_notifications exCreate1.alert exServices).map Prod.fst =
      exServices.map NotificationService.name ∧
    (send_resolution_notification exCreateCrit.alert exServices).map Prod.fst =
      exServices.map NotificationService.name ∧
    (create_alert exState0 exServices "id-1" "latency_spike" "checkout-api" "warning"
        "p99 above threshold" [] "prod" [] 0).alert =
      (create_alert exState0 [] "id-1" "latency_spike" "checkout-api" "warning"
        "p99 above threshold" [] "prod" [] 0).alert ∧
    (create_alert exState0 exServices "id-1" "latency_spike" "checkout-api" "warning"
        "p99 above threshold" [] "prod" [] 0).state =
      (create_alert exState0 [] "id-1" "latency_spike" "checkout-api" "warning"
        "p99 above threshold" [] "prod" [] 0).state ∧
    (resolve_alert exCreate1.state exServices "id-1" none 20).map ResolveResult.alert =
      (resolve_alert exCreate1.state [] "id-1" none 20).map ResolveResult.alert := by
  obtain ⟨h1, -, h3, h4, -, -⟩ := dispatcher_fault_isolation exCreate1.alert exServices []
    exState0 "id-1" "latency_spike" "checkout-api" "warning" "p99 above threshold" []
    "prod" [] 0 "id-1" none 20
  obtain ⟨-, h2, -, -, h5, -⟩ := dispatcher_fault_isolation exCreateCrit.alert exServices []
    exCreate1.state "id-1" "latency_spike" "checkout-api" "warning" "p99 above threshold" []
    "prod" [] 0 "id-1" none 20
  exact ⟨h1 (by decide), h2 (Or.inr (by decide)), h3, h4, h5⟩

theorem matchesFilter_iff (f : Option String) (v : String) :
    matchesFilter f v = true ↔ ∀ fv, f = some fv → fv ≠ "" → v = fv := by
  cases f with
  | none => simp [matchesFilter]
  | some fv =>
    by_cases h : fv = ""
    · subst h
      simp [matchesFilter]
    · simp [matchesFilter, h]

/-- C8 counterexample: a filter explicitly provided as the empty string is
ignored (Python truthiness), so `get_active_alerts` with `environment = ""`
returns the prod alert even though its environment is not equal to the
provided filter value. -/
theorem empty_filter_counterexample :
    get_active_alerts exCreate1.state (some "") none none = [exCreate1.alert] ∧
    exCreate1.alert.environment = "prod" ∧ exCreate1.alert.environment ≠ "" := by
  decide

/-- C8 amended: an alert is returned by `get_active_alerts` exactly when it
is stored, its status is active, and it equals every provided non-empty
filter value (a filter that is absent or the empty string imposes nothing);
consequently no resolved alert ever appears. -/
theorem get_active_alerts_spec (s : AlertManagerState)
    (environment severity source : Option String) (a : Alert) :
    (a ∈ get_active_alerts s environment severity source ↔
      a ∈ s.active_alerts.map Prod.snd ∧ a.status = "active" ∧
      (∀ f, environment = some f → f ≠ "" → a.environment = f) ∧
      (∀ f, severity = some f → f ≠ "" → a.severity = f) ∧
      (∀ f, source = some f → f ≠ "" → a.source = f)) ∧
    (a ∈ get_active_alerts s environment severity source → a.status ≠ "resolved") := by
  have hchar : a ∈ get_active_alerts s environment severity source ↔
      a ∈ s.active_alerts.map Prod.snd ∧ a.status = "active" ∧
      (∀ f, environment = some f → f ≠ "" → a.environment = f) ∧
      (∀ f, severity = some f → f ≠ "" → a.severity = f) ∧
      (∀ f, source = some f → f ≠ "" → a.source = f) := by
    rw [get_active_alerts, List.mem_filter]
    simp only [Bool.and_eq_true, decide_eq_true_eq, matchesFilter_iff]
    tauto
  refine ⟨hchar, ?_⟩
  intro hmem hcon
  have hact := (hchar.mp hmem).2.1
  rw [hcon] at hact
  exact absurd hact (by decide)

/-- Witness for the amended C8: the stored prod/warning alert satisfies the
characterization for the filters (environment = "prod", severity = "warning"),
and is not resolved. -/
theorem get_active_alerts_spec_witness :
    (exCreate1.alert ∈ exCreate1.state.active_alerts.map Prod.snd ∧
      exCreate1.alert.status = "active" ∧
      (∀ f, (some "prod" : Option String) = some f → f ≠ "" →
        exCreate1.alert.environment = f) ∧
      (∀ f, (some "warning" : Option String) = some f → f ≠ "" →
        exCreate1.alert.severity = f) ∧
      (∀ f, (none : Option String) = some f → f ≠ "" → exCreate1.alert.source = f)) ∧
    exCreate1.alert.status ≠ "resolved" :=
  ⟨(get_active_alerts_spec exCreate1.state (some "prod") (some "warning") none
      exCreate1.alert).1.mp (by decide),
   (get_active_alerts_spec exCreate1.state (some "prod") (some "warning") none
      exCreate1.alert).2 (by decide)⟩

/-- C10: `PagerDutyNotifier.send_alert` makes no delivery attempt at all for
info- and warning-severity alerts, even though the dispatcher itself gates
only severity info and therefore does invoke every configured service (the
pagerduty one included) for a warning alert. -/
theorem pagerduty_severity_gate (service_key : String) (a : Alert)
    (svs : List NotificationService)
    (h : a.severity = "info" ∨ a.severity = "warning") :
    PagerDutyNotifier.send_alert service_key a = none ∧
    (a.severity = "warning" →
      (send_notifications a svs).map Prod.fst = svs.map NotificationService.name) := by
  constructor
  · have hcond : a.severity ∉ [AlertSeverity.ERROR, AlertSeverity.CRITICAL] := by
      rcases h with h | h <;> rw [h] <;> decide
    unfold PagerDutyNotifier.send_alert
    rw [if_pos hcond]
  · intro hw
    have hne : ¬ a.severity = AlertSeverity.INFO := by
      rw [hw]
      decide
    unfold send_notifications
    rw [if_neg hne]
    simp [List.map_map, Function.comp]

/-- Witness for C10: the warning alert of the fixture run is dispatched to
both configured services, yet the PagerDuty notifier itself attempts no
delivery for it. -/
theorem pagerduty_severity_gate_witness :
    PagerDutyNotifier.send_alert "your_pagerduty_service_key" exCreate1.alert = none ∧
    (send_notifications exCreate1.alert exServices).map Prod.fst =
      exServices.map NotificationService.name :=
  ⟨(pagerduty_severity_gate "your_pagerduty_service_key" exCreate1.alert exServices
      (Or.inr (by decide))).1,
   (pagerduty_severity_gate "your_pagerduty_service_key" exCreate1.alert exServices
      (Or.inr (by decide))).2 (by decide)⟩

end APIGateway
